import Mathlib

/-!
Shallow embedding of the `defi_ch` repository: the cross-chain event relayer
in `src/script.py` (classes `StateDB`, `EventScanner`, `CrossChainRelayer`)
and the fallback price lookup in `src/price_aggregator.py`
(class `PriceAggregator`).

Block numbers and amounts are Python integers, modelled as `Int`.
External effects (chain queries, HTTP posts, file writes) are modelled by
explicit oracle inputs and by recording the outbound calls a function makes.
-/

namespace DefiCh

/-- Configuration fields of `ConfigManager` used by the core logic
(`script.py`, lines 28-34). -/
structure Config where
  BLOCK_CONFIRMATIONS : Int
  DESTINATION_CHAIN_API_ENDPOINT : String
deriving Repr, DecidableEq

/-- A raw log entry as handed to `EventScanner._format_event`
(`script.py`, lines 182-194).  The entries of the `args` dict are `Option`s:
`none` models a missing key, whose access raises `KeyError` in Python. -/
structure RawLog where
  transactionHash : String
  blockNumber : Int
  sender : Option String
  destinationChainId : Option Int
  recipient : Option String
  token : Option String
  amount : Option Int
  transactionId : Option String
deriving Repr, DecidableEq

/-- The structured dict returned by `EventScanner._format_event`
(`script.py`, lines 185-194). -/
structure EventRecord where
  transactionHash : String
  blockNumber : Int
  sender : String
  destinationChainId : Int
  recipient : String
  token : String
  amount : Int
  transactionId : String
deriving Repr, DecidableEq

/-- `EventScanner._format_event` (`script.py`, lines 182-194): reads each
field of `event_log['args']`; a missing field raises `KeyError`, modelled as
`none`. -/
def format_event (log : RawLog) : Option EventRecord :=
  match log.sender, log.destinationChainId, log.recipient, log.token,
      log.amount, log.transactionId with
  | some s, some d, some r, some t, some a, some tx =>
      some { transactionHash := log.transactionHash
             blockNumber := log.blockNumber
             sender := s
             destinationChainId := d
             recipient := r
             token := t
             amount := a
             transactionId := tx }
  | _, _, _, _, _, _ => none

/-- Outcome of the connector call
`event_filter.get_all_entries()` inside `scan_for_events`
(`script.py`, lines 162-166): a list of raw logs, a `BlockNotFound`
exception, or any other exception. -/
inductive QueryResult where
  | ok (logs : List RawLog)
  | blockNotFound
  | otherFailure
deriving Repr, DecidableEq

/-- Which exit path `scan_for_events` took, distinguishing its logging:
the early `from_block > to_block` return (line 156-158), a normal scan
(lines 160-174), the `BlockNotFound` warning handler (lines 175-177), and
the generic `except Exception` error handler (lines 178-180). -/
inductive ScanNote where
  | emptyRange
  | scanned
  | warnedBlockNotFound
  | errorLogged
deriving Repr, DecidableEq

/-- `EventScanner.scan_for_events` (`script.py`, lines 145-180).
`q` is the connector's answer for the queried range.  The list
comprehension `[self._format_event(event) for event in events]` raises at
the first malformed log; that exception is caught by the generic
`except Exception` handler which logs an error and returns `[]`
(lines 178-180), modelled by `List.mapM format_event` being `none`. -/
def scan_for_events (from_block to_block : Int) (q : QueryResult) :
    List EventRecord × ScanNote :=
  if from_block > to_block then ([], .emptyRange)
  else
    match q with
    | .ok logs =>
        match logs.mapM format_event with
        | some recs => (recs, .scanned)
        | none => ([], .errorLogged)
    | .blockNotFound => ([], .warnedBlockNotFound)
    | .otherFailure => ([], .errorLogged)

/-- Inner `payload` object of the JSON body built by
`CrossChainRelayer.relay_event` (`script.py`, lines 279-286). -/
structure PayloadInner where
  sender : String
  recipient : String
  token : String
  amount : String
  uniqueBridgeTxId : String
deriving Repr, DecidableEq

/-- JSON body submitted to the destination API
(`script.py`, lines 276-286). -/
structure Payload where
  sourceTransactionHash : String
  sourceBlockNumber : Int
  payload : PayloadInner
deriving Repr, DecidableEq

/-- One outbound `requests.post` call (`script.py`, lines 289-293),
recording the endpoint, the JSON body and the `timeout=10` argument. -/
structure HttpPost where
  url : String
  body : Payload
  timeout : Int
deriving Repr, DecidableEq

/-- Per-record relay outcome (spec §3 `RelayOutcome`).  The code's
`relay_event` returns `None` and reports through its log lines; this record
captures what those log lines say: `delivered` is whether the post
succeeded, `reason` is the logged cause of a skip or failure
(`script.py`, lines 272-273 log "invalid amount", lines 299-300 log the
delivery failure). -/
structure RelayOutcome where
  transaction_id : String
  delivered : Bool
  reason : Option String
deriving Repr, DecidableEq

/-- `CrossChainRelayer.relay_event` (`script.py`, lines 265-301).
`destOk` tells whether the destination call returns 2xx; a non-2xx
response or network failure is caught as `RequestException`
(lines 299-300) and only logged.  Returns the outbound calls made and the
outcome. -/
def relay_event (cfg : Config) (ev : EventRecord) (destOk : Bool) :
    List HttpPost × RelayOutcome :=
  if ev.amount ≤ 0 then
    ([], { transaction_id := ev.transactionId
           delivered := false
           reason := some "invalid amount" })
  else
    let body : Payload :=
      { sourceTransactionHash := ev.transactionHash
        sourceBlockNumber := ev.blockNumber
        payload :=
          { sender := ev.sender
            recipient := ev.recipient
            token := ev.token
            amount := toString ev.amount
            uniqueBridgeTxId := ev.transactionId } }
    let call : HttpPost :=
      { url := cfg.DESTINATION_CHAIN_API_ENDPOINT
        body := body
        timeout := 10 }
    if destOk then
      ([call], { transaction_id := ev.transactionId
                 delivered := true
                 reason := none })
    else
      ([call], { transaction_id := ev.transactionId
                 delivered := false
                 reason := some "delivery error" })

/-- Orchestrator state: `mem` is the in-memory
`self.state["last_scanned_block"]` of `CrossChainRelayer`; `disk` is the
value the `StateDB` JSON file currently holds (what a restart's
`load_state` would return, `script.py` lines 70-77). -/
structure World where
  mem : Option Int
  disk : Option Int
deriving Repr, DecidableEq

/-- The environment of one `process_blocks` iteration: the chain height
returned by `w3.eth.block_number`, the connector's answer for a queried
range, per-record destination success, and whether the `StateDB` file
write succeeds (`save_state` catches `IOError` and only logs,
`script.py` lines 79-86). -/
structure StepInput where
  latest_block : Int
  query : Int → Int → QueryResult
  destOk : EventRecord → Bool
  saveOk : Bool

/-- `StateDB.save_state` (`script.py`, lines 79-86) combined with the
in-place dict update `self.state["last_scanned_block"] = to_block`
(lines 255, 262): the in-memory value is always updated; the file is
updated only when the write does not raise `IOError` (a failing write is
caught and logged, leaving the file as it was). -/
def save_state (w : World) (newMem : Option Int) (saveOk : Bool) : World :=
  { mem := newMem, disk := if saveOk then newMem else w.disk }

/-- Trace of one `process_blocks` iteration: resulting state, the range
passed to the scanner (`none` when the range check returned early), the
outbound posts, the per-record outcomes, and whether
`state_db.save_state` was invoked. -/
structure StepResult where
  world : World
  scanRange : Option (Int × Int)
  posts : List HttpPost
  outcomes : List RelayOutcome
  saveCalled : Bool
deriving Repr, DecidableEq

/-- `to_block = latest_block - self.config.BLOCK_CONFIRMATIONS`
(`script.py`, line 237). -/
def compute_to_block (cfg : Config) (latest_block : Int) : Int :=
  latest_block - cfg.BLOCK_CONFIRMATIONS

/-- `from_block` computation (`script.py`, lines 239-246): `to_block` on
first run (`last_scanned_block is None`), otherwise
`max(0, last_scanned - BLOCK_CONFIRMATIONS)`. -/
def compute_from_block (cfg : Config) (last_scanned : Option Int)
    (to_block : Int) : Int :=
  match last_scanned with
  | none => to_block
  | some last => max 0 (last - cfg.BLOCK_CONFIRMATIONS)

/-- `CrossChainRelayer.process_blocks` (`script.py`, lines 229-263):
compute the range; return early if `from_block > to_block`; otherwise
scan; if no events, update and save state; else relay each event in
order, then update and save state. -/
def process_blocks (cfg : Config) (w : World) (inp : StepInput) :
    StepResult :=
  let to_block := compute_to_block cfg inp.latest_block
  let from_block := compute_from_block cfg w.mem to_block
  if from_block > to_block then
    { world := w, scanRange := none, posts := [], outcomes := []
      saveCalled := false }
  else
    let events := (scan_for_events from_block to_block
      (inp.query from_block to_block)).1
    if events.isEmpty then
      { world := save_state w (some to_block) inp.saveOk
        scanRange := some (from_block, to_block)
        posts := [], outcomes := [], saveCalled := true }
    else
      let relayed := events.map (fun e => relay_event cfg e (inp.destOk e))
      { world := save_state w (some to_block) inp.saveOk
        scanRange := some (from_block, to_block)
        posts := (relayed.map (fun r => r.1)).flatten
        outcomes := relayed.map (fun r => r.2)
        saveCalled := true }

/-- Spec-side range formula, written from the spec's words (§4.5 step 2):
"`to_block = latest - CONFIRMATION_DEPTH`". -/
def spec_to_block (latest confirmation_depth : Int) : Int :=
  latest - confirmation_depth

/-- Spec-side range formula, written from the spec's words (§4.5 step 3):
cold start gives `from_block = to_block`, otherwise
`from_block = max(0, checkpoint - CONFIRMATION_DEPTH)`. -/
def spec_from_block (checkpoint : Option Int)
    (to_block confirmation_depth : Int) : Int :=
  match checkpoint with
  | none => to_block
  | some c => max 0 (c - confirmation_depth)

/-! ### Price aggregator (`src/price_aggregator.py`) -/

/-- Behaviour of one provider call `provider(token_symbol)`
(`price_aggregator.py`, line 51): it may raise (caught by the bare
`except`, line 54), return `None`, return a non-numeric value (failing
the `isinstance` check, line 52), or return a numeric value, modelled as
a rational. -/
inductive ProviderOutcome where
  | raised
  | returnedNone
  | nonNumeric
  | numeric (v : ℚ)
deriving Repr, DecidableEq

/-- `PriceAggregator.get_price` (`price_aggregator.py`, lines 32-59):
walk the providers in order; return the first numeric, strictly positive
price; if the loop finishes, raise `PriceNotFoundError(token_symbol)`,
modelled as `.error token_symbol`. -/
def get_price (providers : List (String → ProviderOutcome))
    (token_symbol : String) : Except String ℚ :=
  match providers with
  | [] => .error token_symbol
  | p :: rest =>
      match p token_symbol with
      | .numeric v =>
          if 0 < v then .ok v else get_price rest token_symbol
      | _ => get_price rest token_symbol

/-- Spec-side restatement of the claimed lookup behaviour: the first
provider outcome that is a numeric value strictly greater than zero
wins; providers that raise, return `None`, return a non-numeric or a
non-positive value are skipped; no such outcome means the token's error. -/
def get_price_spec (results : List ProviderOutcome) (token_symbol : String) :
    Except String ℚ :=
  match results with
  | [] => .error token_symbol
  | .numeric v :: rest =>
      if 0 < v then .ok v else get_price_spec rest token_symbol
  | _ :: rest => get_price_spec rest token_symbol

/-! ### Concrete fixtures used in scenario theorems -/

/-- Default configuration of the scenarios: `BLOCK_CONFIRMATIONS = 6`
(the default of `ConfigManager`, `script.py` line 32). -/
def cfg6 : Config :=
  { BLOCK_CONFIRMATIONS := 6
    DESTINATION_CHAIN_API_ENDPOINT := "https://api.destination-chain.com/relay" }

/-- A benign iteration input at chain height `h`: no events found, the
destination accepts, the state file write succeeds. -/
def inputAt (h : Int) : StepInput :=
  { latest_block := h
    query := fun _ _ => .ok []
    destOk := fun _ => true
    saveOk := true }

/-- Same as `inputAt` but the state file write raises `IOError`. -/
def inputFailSave (h : Int) : StepInput :=
  { latest_block := h
    query := fun _ _ => .ok []
    destOk := fun _ => true
    saveOk := false }

/-- A raw log whose `args` dict is missing the `amount` key: accessing it
in `_format_event` raises `KeyError`. -/
def malformedLog : RawLog :=
  { transactionHash := "0xaaa"
    blockNumber := 90
    sender := some "0xsender"
    destinationChainId := some 1
    recipient := some "0xrecipient"
    token := some "0xtoken"
    amount := none
    transactionId := some "0xid1" }

/-- Iteration input whose connector returns a single malformed log for
every queried range. -/
def inputMalformed (h : Int) : StepInput :=
  { latest_block := h
    query := fun _ _ => .ok [malformedLog]
    destOk := fun _ => true
    saveOk := true }

/-- Iteration input whose connector raises `BlockNotFound` for every
queried range. -/
def inputUnavailable (h : Int) : StepInput :=
  { latest_block := h
    query := fun _ _ => .blockNotFound
    destOk := fun _ => true
    saveOk := true }

/-- A well-formed event record with `amount = 0`. -/
def evZero : EventRecord :=
  { transactionHash := "0xbbb"
    blockNumber := 95
    sender := "0xsender"
    destinationChainId := 1
    recipient := "0xrecipient"
    token := "0xtoken"
    amount := 0
    transactionId := "0xid2" }

/-- A well-formed event record with `amount = 1234`. -/
def evValid : EventRecord :=
  { transactionHash := "0xccc"
    blockNumber := 95
    sender := "0xsender"
    destinationChainId := 1
    recipient := "0xrecipient"
    token := "0xtoken"
    amount := 1234
    transactionId := "0xid3" }

/-! ### Helper lemmas -/

/-- Whenever an iteration reaches `save_state`, the in-memory checkpoint has
been set to that iteration's `to_block`. -/
theorem process_blocks_saveCalled_mem (cfg : Config) (w : World)
    (inp : StepInput)
    (h : (process_blocks cfg w inp).saveCalled = true) :
    (process_blocks cfg w inp).world.mem
        = some (compute_to_block cfg inp.latest_block) := by
  simp only [process_blocks] at h ⊢
  split at h
  · simp at h
  · rename_i hgt
    rw [if_neg hgt]
    split <;> rfl

/-! ### Claim theorems -/

/-- Claim C1: for every iteration that proceeds past the range check
(`from_block ≤ to_block`), the checkpoint is set to
`last_scanned_block = to_block` and `save_state` is invoked (persisting it
whenever the file write succeeds), regardless of what the scan returned
and regardless of individual relay delivery failures (`inp.query` and
`inp.destOk` are arbitrary). -/
theorem C1_checkpoint_advance_unconditional (cfg : Config) (w : World)
    (inp : StepInput)
    (h : compute_from_block cfg w.mem (compute_to_block cfg inp.latest_block)
        ≤ compute_to_block cfg inp.latest_block) :
    (process_blocks cfg w inp).world.mem
        = some (compute_to_block cfg inp.latest_block) ∧
    (process_blocks cfg w inp).saveCalled = true ∧
    (inp.saveOk = true →
      (process_blocks cfg w inp).world.disk
          = some (compute_to_block cfg inp.latest_block)) := by
  simp only [process_blocks]
  rw [if_neg (not_lt.mpr h)]
  split <;> exact ⟨rfl, rfl, fun hs => by simp [save_state, hs]⟩

/-- Witness for C1: checkpoint 94, chain height 103, depth 6; a timing-out
destination (`destOk` irrelevant since no events); checkpoint becomes 97
in memory, on disk, and `save_state` was called. -/
theorem C1_witness :
    compute_from_block cfg6 (some 94) (compute_to_block cfg6 103)
        ≤ compute_to_block cfg6 103 ∧
    ((process_blocks cfg6 ⟨some 94, some 94⟩ (inputAt 103)).world.mem
        = some (compute_to_block cfg6 103) ∧
    (process_blocks cfg6 ⟨some 94, some 94⟩ (inputAt 103)).saveCalled = true ∧
    ((inputAt 103).saveOk = true →
      (process_blocks cfg6 ⟨some 94, some 94⟩ (inputAt 103)).world.disk
          = some (compute_to_block cfg6 103))) :=
  ⟨by decide,
   C1_checkpoint_advance_unconditional cfg6 ⟨some 94, some 94⟩ (inputAt 103)
     (by decide)⟩

/-- Claim C2: the scan range is `to_block = latest - CONFIRMATION_DEPTH`
and `from_block = to_block` on cold start, else
`max(0, checkpoint - CONFIRMATION_DEPTH)` (stated through the spec-side
formulas `spec_to_block`/`spec_from_block`); in particular checkpoint 94,
height 103, depth 6 gives the range `[88, 97]`. -/
theorem C2_range_computation (cfg : Config) (w : World) (inp : StepInput) :
    (spec_from_block w.mem
        (spec_to_block inp.latest_block cfg.BLOCK_CONFIRMATIONS)
        cfg.BLOCK_CONFIRMATIONS
        ≤ spec_to_block inp.latest_block cfg.BLOCK_CONFIRMATIONS →
      (process_blocks cfg w inp).scanRange =
        some (spec_from_block w.mem
                (spec_to_block inp.latest_block cfg.BLOCK_CONFIRMATIONS)
                cfg.BLOCK_CONFIRMATIONS,
              spec_to_block inp.latest_block cfg.BLOCK_CONFIRMATIONS)) ∧
    (process_blocks cfg6 ⟨some 94, some 94⟩ (inputAt 103)).scanRange
        = some (88, 97) := by
  constructor
  · intro h
    have hfrom : spec_from_block w.mem
        (spec_to_block inp.latest_block cfg.BLOCK_CONFIRMATIONS)
        cfg.BLOCK_CONFIRMATIONS
        = compute_from_block cfg w.mem (compute_to_block cfg inp.latest_block) := by
      cases w.mem <;> rfl
    have hto : spec_to_block inp.latest_block cfg.BLOCK_CONFIRMATIONS
        = compute_to_block cfg inp.latest_block := rfl
    rw [hfrom, hto] at h ⊢
    simp only [process_blocks]
    rw [if_neg (not_lt.mpr h)]
    split <;> rfl
  · decide

/-- Witness for C2: the scenario of the claim, checkpoint 94, height 103,
depth 6. -/
theorem C2_witness :
    spec_from_block (some 94) (spec_to_block 103 6) 6 ≤ spec_to_block 103 6 ∧
    (process_blocks cfg6 ⟨some 94, some 94⟩ (inputAt 103)).scanRange =
      some (spec_from_block (some 94) (spec_to_block 103 6) 6,
            spec_to_block 103 6) :=
  ⟨by decide,
   (C2_range_computation cfg6 ⟨some 94, some 94⟩ (inputAt 103)).1 (by decide)⟩

/-- Counterexample to claim C3: two consecutive successful iterations
(cold start at height 100, then height 96 — the connector reports a lower
height, e.g. a lagging node) both call `save_state`, yet the second writes
checkpoint 90 after the first wrote 94: the `to_block` written to the
checkpoint is not non-decreasing. -/
theorem C3_counterexample :
    (process_blocks cfg6 ⟨none, none⟩ (inputAt 100)).saveCalled = true ∧
    (process_blocks cfg6 ⟨none, none⟩ (inputAt 100)).world.mem = some 94 ∧
    (process_blocks cfg6 (process_blocks cfg6 ⟨none, none⟩ (inputAt 100)).world
        (inputAt 96)).saveCalled = true ∧
    (process_blocks cfg6 (process_blocks cfg6 ⟨none, none⟩ (inputAt 100)).world
        (inputAt 96)).world.mem = some 90 ∧
    ¬ (94 : Int) ≤ 90 := by
  decide

/-- Claim C3 as amended: across two consecutive successful iterations,
provided the reported chain height does not decrease, the written
`to_block` is non-decreasing; and (unconditionally) the decrease of the
next `from_block` relative to the prior `to_block` is at most
`CONFIRMATION_DEPTH`. -/
theorem C3_amended_monotonicity (cfg : Config) (w : World)
    (i1 i2 : StepInput)
    (hmono : i1.latest_block ≤ i2.latest_block)
    (h1 : (process_blocks cfg w i1).saveCalled = true) :
    (process_blocks cfg w i1).world.mem
        = some (spec_to_block i1.latest_block cfg.BLOCK_CONFIRMATIONS) ∧
    spec_to_block i1.latest_block cfg.BLOCK_CONFIRMATIONS
        ≤ spec_to_block i2.latest_block cfg.BLOCK_CONFIRMATIONS ∧
    spec_to_block i1.latest_block cfg.BLOCK_CONFIRMATIONS
        - compute_from_block cfg (process_blocks cfg w i1).world.mem
            (spec_to_block i2.latest_block cfg.BLOCK_CONFIRMATIONS)
        ≤ cfg.BLOCK_CONFIRMATIONS ∧
    ((process_blocks cfg (process_blocks cfg w i1).world i2).saveCalled = true →
      (process_blocks cfg (process_blocks cfg w i1).world i2).world.mem
          = some (spec_to_block i2.latest_block cfg.BLOCK_CONFIRMATIONS)) := by
  have hmem := process_blocks_saveCalled_mem cfg w i1 h1
  refine ⟨hmem, ?_, ?_, ?_⟩
  · simp only [spec_to_block]
    omega
  · rw [hmem]
    simp only [compute_from_block, spec_to_block, compute_to_block]
    have hmax := le_max_right (0 : ℤ)
      (i1.latest_block - cfg.BLOCK_CONFIRMATIONS - cfg.BLOCK_CONFIRMATIONS)
    linarith
  · intro h2
    exact process_blocks_saveCalled_mem cfg _ i2 h2

/-- Witness for C3 as amended: checkpoint 94, heights 103 then 105,
depth 6. -/
theorem C3_amended_witness :
    (inputAt 103).latest_block ≤ (inputAt 105).latest_block ∧
    (process_blocks cfg6 ⟨some 94, some 94⟩ (inputAt 103)).saveCalled = true ∧
    ((process_blocks cfg6 ⟨some 94, some 94⟩ (inputAt 103)).world.mem
        = some (spec_to_block 103 6) ∧
    spec_to_block 103 6 ≤ spec_to_block 105 6 ∧
    spec_to_block 103 6
        - compute_from_block cfg6
            (process_blocks cfg6 ⟨some 94, some 94⟩ (inputAt 103)).world.mem
            (spec_to_block 105 6)
        ≤ (6 : Int) ∧
    ((process_blocks cfg6
        (process_blocks cfg6 ⟨some 94, some 94⟩ (inputAt 103)).world
        (inputAt 105)).saveCalled = true →
      (process_blocks cfg6
          (process_blocks cfg6 ⟨some 94, some 94⟩ (inputAt 103)).world
          (inputAt 105)).world.mem = some (spec_to_block 105 6))) :=
  ⟨by decide, by decide,
   C3_amended_monotonicity cfg6 ⟨some 94, some 94⟩ (inputAt 103) (inputAt 105)
     (by decide) (by decide)⟩

/-- Counterexample to claim C4: checkpoint 94, height 103, depth 6, and
the state file write raises `IOError`.  The in-memory state is already
advanced to 97 before `save_state` runs, so the next iteration computes
the range `[91, 97]` from the advanced value — not the pre-failure range
`[88, 97]` the claim requires. -/
theorem C4_counterexample :
    (process_blocks cfg6 ⟨some 94, some 94⟩ (inputFailSave 103)).saveCalled
        = true ∧
    (process_blocks cfg6 ⟨some 94, some 94⟩ (inputFailSave 103)).world.mem
        = some 97 ∧
    (process_blocks cfg6
        (process_blocks cfg6 ⟨some 94, some 94⟩ (inputFailSave 103)).world
        (inputAt 103)).scanRange = some (91, 97) ∧
    ¬ (process_blocks cfg6
        (process_blocks cfg6 ⟨some 94, some 94⟩ (inputFailSave 103)).world
        (inputAt 103)).scanRange = some (88, 97) := by
  decide

/-- Claim C4 as amended: a failing state file write is caught and logged;
the on-disk checkpoint is not advanced (a restart would re-derive from
the pre-failure value), but the in-memory state has already been set to
`to_block`, so the next iteration in the same process derives its range
from the advanced value. -/
theorem C4_amended_persistence_failure (cfg : Config) (w : World)
    (inp : StepInput)
    (hfail : inp.saveOk = false)
    (hproceed : (process_blocks cfg w inp).saveCalled = true) :
    (process_blocks cfg w inp).world.disk = w.disk ∧
    (process_blocks cfg w inp).world.mem
        = some (spec_to_block inp.latest_block cfg.BLOCK_CONFIRMATIONS) := by
  refine ⟨?_, process_blocks_saveCalled_mem cfg w inp hproceed⟩
  simp only [process_blocks] at hproceed ⊢
  split at hproceed
  · simp at hproceed
  · rename_i hgt
    rw [if_neg hgt]
    split <;> simp [save_state, hfail]

/-- Witness for C4 as amended: checkpoint 94, height 103, depth 6,
failing write. -/
theorem C4_amended_witness :
    (inputFailSave 103).saveOk = false ∧
    (process_blocks cfg6 ⟨some 94, some 94⟩ (inputFailSave 103)).saveCalled
        = true ∧
    ((process_blocks cfg6 ⟨some 94, some 94⟩ (inputFailSave 103)).world.disk
        = some 94 ∧
    (process_blocks cfg6 ⟨some 94, some 94⟩ (inputFailSave 103)).world.mem
        = some (spec_to_block 103 6)) :=
  ⟨by decide, by decide,
   C4_amended_persistence_failure cfg6 ⟨some 94, some 94⟩ (inputFailSave 103)
     (by decide) (by decide)⟩

/-- Counterexample to claim C5: a range containing a log with a missing
`amount` field is not surfaced as an aborting `DecodeError`: the
`KeyError` is caught by the scanner's generic handler, the scan result is
the empty list (the error only logged), the iteration completes and the
checkpoint still advances (here to 90, persisted). -/
theorem C5_counterexample :
    scan_for_events 84 90 (QueryResult.ok [malformedLog])
        = ([], ScanNote.errorLogged) ∧
    (process_blocks cfg6 ⟨some 90, some 90⟩ (inputMalformed 96)).saveCalled
        = true ∧
    (process_blocks cfg6 ⟨some 90, some 90⟩ (inputMalformed 96)).world
        = ⟨some 90, some 90⟩ := by
  decide

/-- Claim C5 as amended: a decoding failure over a valid range is caught
by the scanner's generic `except Exception` handler, logged as an error,
and swallowed into an empty result (dropping every event of the range);
the iteration is not aborted. -/
theorem C5_amended_decode_failure_swallowed (from_block to_block : Int)
    (logs : List RawLog)
    (hrange : from_block ≤ to_block)
    (hmal : logs.mapM format_event = none) :
    scan_for_events from_block to_block (QueryResult.ok logs)
        = ([], ScanNote.errorLogged) := by
  simp only [scan_for_events]
  rw [if_neg (not_lt.mpr hrange)]
  simp only [List.mapM] at hmal
  simp [hmal]

/-- Witness for C5 as amended: the range `[84, 90]` with one log missing
its `amount` field. -/
theorem C5_amended_witness :
    (84 : Int) ≤ 90 ∧
    ([malformedLog].mapM format_event = none) ∧
    scan_for_events 84 90 (QueryResult.ok [malformedLog])
        = ([], ScanNote.errorLogged) :=
  ⟨by decide, by decide,
   C5_amended_decode_failure_swallowed 84 90 [malformedLog]
     (by decide) (by decide)⟩

/-- Counterexample to claim C6: with checkpoint 94, chain height 96 and
depth 6 the code computes `from_block = max(0, 94-6) = 88 ≤ 90 = to_block`
(not `from_block = 94`), so a scan over `[88, 90]` does occur and the
checkpoint changes to 90 — the claim's instantiation is false. -/
theorem C6_counterexample :
    (process_blocks cfg6 ⟨some 94, some 94⟩ (inputAt 96)).scanRange
        = some (88, 90) ∧
    (process_blocks cfg6 ⟨some 94, some 94⟩ (inputAt 96)).world
        = ⟨some 90, some 90⟩ ∧
    ¬ ((process_blocks cfg6 ⟨some 94, some 94⟩ (inputAt 96)).scanRange = none ∧
       (process_blocks cfg6 ⟨some 94, some 94⟩ (inputAt 96)).world
           = ⟨some 94, some 94⟩) := by
  decide

/-- Claim C6 as amended: whenever the computed `from_block` exceeds
`to_block`, the iteration ends with no scan, no relay and no state change;
the skip scenario at checkpoint 94, depth 6 needs chain height at most 93
(e.g. height 93 gives `to_block = 87 < 88 = from_block`), not 96. -/
theorem C6_amended_skip_iteration (cfg : Config) (w : World)
    (inp : StepInput)
    (h : spec_to_block inp.latest_block cfg.BLOCK_CONFIRMATIONS <
        compute_from_block cfg w.mem
          (spec_to_block inp.latest_block cfg.BLOCK_CONFIRMATIONS)) :
    process_blocks cfg w inp =
      { world := w, scanRange := none, posts := [], outcomes := []
        saveCalled := false } ∧
    (process_blocks cfg6 ⟨some 94, some 94⟩ (inputAt 93)).scanRange = none ∧
    (process_blocks cfg6 ⟨some 94, some 94⟩ (inputAt 93)).world
        = ⟨some 94, some 94⟩ := by
  refine ⟨?_, by decide, by decide⟩
  have h' : compute_from_block cfg w.mem (compute_to_block cfg inp.latest_block)
      > compute_to_block cfg inp.latest_block := h
  simp only [process_blocks]
  rw [if_pos h']

/-- Witness for C6 as amended: checkpoint 94, chain height 93, depth 6. -/
theorem C6_amended_witness :
    spec_to_block 93 6 <
        compute_from_block cfg6 (some 94) (spec_to_block 93 6) ∧
    process_blocks cfg6 ⟨some 94, some 94⟩ (inputAt 93) =
      { world := ⟨some 94, some 94⟩, scanRange := none, posts := []
        outcomes := [], saveCalled := false } ∧
    (process_blocks cfg6 ⟨some 94, some 94⟩ (inputAt 93)).scanRange = none ∧
    (process_blocks cfg6 ⟨some 94, some 94⟩ (inputAt 93)).world
        = ⟨some 94, some 94⟩ :=
  ⟨by decide,
   (C6_amended_skip_iteration cfg6 ⟨some 94, some 94⟩ (inputAt 93)
     (by decide)).1,
   (C6_amended_skip_iteration cfg6 ⟨some 94, some 94⟩ (inputAt 93)
     (by decide)).2⟩

/-- Claim C7: a record with non-positive amount is never submitted — the
relay makes zero outbound calls — and the outcome is not-delivered with
the logged reason "invalid amount". -/
theorem C7_nonpositive_amount_never_submitted (cfg : Config)
    (ev : EventRecord) (destOk : Bool)
    (h : ev.amount ≤ 0) :
    (relay_event cfg ev destOk).1 = [] ∧
    (relay_event cfg ev destOk).2 =
      { transaction_id := ev.transactionId, delivered := false
        reason := some "invalid amount" } := by
  simp only [relay_event]
  rw [if_pos h]
  exact ⟨rfl, rfl⟩

/-- Witness for C7: the zero-amount record. -/
theorem C7_witness :
    evZero.amount ≤ 0 ∧
    (relay_event cfg6 evZero true).1 = [] ∧
    (relay_event cfg6 evZero true).2 =
      { transaction_id := evZero.transactionId, delivered := false
        reason := some "invalid amount" } :=
  ⟨by decide, (C7_nonpositive_amount_never_submitted cfg6 evZero true
     (by decide)).1,
   (C7_nonpositive_amount_never_submitted cfg6 evZero true (by decide)).2⟩

/-- Claim C8: a `BlockNotFound` range-level failure from the connector is
caught inside the scanner, translated to an empty result on the warning
path, and the orchestrator's iteration completes normally (no posts, save
still called) — no error propagates. -/
theorem C8_range_unavailable_translated (from_block to_block : Int)
    (cfg : Config) (w : World) (inp : StepInput)
    (hrange : from_block ≤ to_block)
    (hq : inp.query = fun _ _ => QueryResult.blockNotFound)
    (hproceed : compute_from_block cfg w.mem
        (compute_to_block cfg inp.latest_block)
        ≤ compute_to_block cfg inp.latest_block) :
    scan_for_events from_block to_block QueryResult.blockNotFound
        = ([], ScanNote.warnedBlockNotFound) ∧
    (process_blocks cfg w inp).posts = [] ∧
    (process_blocks cfg w inp).saveCalled = true := by
  have hscan : ∀ a b : Int, (scan_for_events a b QueryResult.blockNotFound).1
      = [] := by
    intro a b
    unfold scan_for_events
    split
    · rfl
    · rfl
  refine ⟨?_, ?_, ?_⟩
  · simp only [scan_for_events]
    rw [if_neg (not_lt.mpr hrange)]
  · simp only [process_blocks]
    rw [if_neg (not_lt.mpr hproceed), hq]
    simp [hscan]
  · simp only [process_blocks]
    rw [if_neg (not_lt.mpr hproceed), hq]
    simp [hscan]

/-- Witness for C8: range `[88, 97]`, checkpoint 94, height 103, the
connector raising `BlockNotFound`. -/
theorem C8_witness :
    (88 : Int) ≤ 97 ∧
    (inputUnavailable 103).query = (fun _ _ => QueryResult.blockNotFound) ∧
    compute_from_block cfg6 (some 94) (compute_to_block cfg6 103)
        ≤ compute_to_block cfg6 103 ∧
    (scan_for_events 88 97 QueryResult.blockNotFound
        = ([], ScanNote.warnedBlockNotFound) ∧
    (process_blocks cfg6 ⟨some 94, some 94⟩ (inputUnavailable 103)).posts
        = [] ∧
    (process_blocks cfg6 ⟨some 94, some 94⟩ (inputUnavailable 103)).saveCalled
        = true) :=
  ⟨by decide, rfl, by decide,
   C8_range_unavailable_translated 88 97 cfg6 ⟨some 94, some 94⟩
     (inputUnavailable 103) (by decide) rfl (by decide)⟩

/-- Claim C9: a valid record (`amount > 0`) is submitted in exactly one
timeout-bounded post whose JSON body has exactly the shape
`(sourceTransactionHash, sourceBlockNumber, payload.(sender, recipient,
token, amount, uniqueBridgeTxId))` with the amount encoded as the decimal
string of the record's integer amount. -/
theorem C9_payload_shape (cfg : Config) (ev : EventRecord) (destOk : Bool)
    (h : 0 < ev.amount) :
    (relay_event cfg ev destOk).1 =
      [{ url := cfg.DESTINATION_CHAIN_API_ENDPOINT
         body :=
           { sourceTransactionHash := ev.transactionHash
             sourceBlockNumber := ev.blockNumber
             payload :=
               { sender := ev.sender
                 recipient := ev.recipient
                 token := ev.token
                 amount := toString ev.amount
                 uniqueBridgeTxId := ev.transactionId } }
         timeout := 10 }] ∧
    toString ev.amount = Nat.repr ev.amount.toNat := by
  constructor
  · simp only [relay_event]
    rw [if_neg (not_le.mpr h)]
    cases destOk <;> rfl
  · obtain ⟨n, hn⟩ : ∃ n : ℕ, ev.amount = (n : ℤ) :=
      ⟨ev.amount.toNat, (Int.toNat_of_nonneg h.le).symm⟩
    rw [hn]
    rfl

/-- Witness for C9: the record with amount 1234. -/
theorem C9_witness :
    (0 : Int) < evValid.amount ∧
    ((relay_event cfg6 evValid true).1 =
      [{ url := cfg6.DESTINATION_CHAIN_API_ENDPOINT
         body :=
           { sourceTransactionHash := evValid.transactionHash
             sourceBlockNumber := evValid.blockNumber
             payload :=
               { sender := evValid.sender
                 recipient := evValid.recipient
                 token := evValid.token
                 amount := toString evValid.amount
                 uniqueBridgeTxId := evValid.transactionId } }
         timeout := 10 }] ∧
    toString evValid.amount = Nat.repr evValid.amount.toNat) :=
  ⟨by decide, C9_payload_shape cfg6 evValid true (by decide)⟩

/-- Claim C10: `get_price` returns the value of the first provider, in
list order, whose call neither raises nor returns `None` nor a
non-numeric nor a non-positive value; with no such provider it raises
`PriceNotFoundError` carrying the token symbol.  Stated as agreement with
the spec-side lookup `get_price_spec` over the providers' outcomes. -/
theorem C10_first_positive_provider
    (providers : List (String → ProviderOutcome)) (token_symbol : String)
    (hne : providers ≠ []) :
    get_price providers token_symbol =
      get_price_spec (providers.map (fun p => p token_symbol))
        token_symbol := by
  clear hne
  induction providers with
  | nil => rfl
  | cons p rest ih =>
      simp only [get_price, List.map_cons]
      cases hp : p token_symbol with
      | raised => simpa [get_price_spec] using ih
      | returnedNone => simpa [get_price_spec] using ih
      | nonNumeric => simpa [get_price_spec] using ih
      | numeric v =>
          simp only [get_price_spec]
          by_cases hv : 0 < v
          · rw [if_pos hv, if_pos hv]
          · rw [if_neg hv, if_neg hv, ih]

/-- Witness for C10: the first provider raises, the second returns 3. -/
theorem C10_witness :
    ([fun _ => ProviderOutcome.raised, fun _ => ProviderOutcome.numeric 3] :
        List (String → ProviderOutcome)) ≠ [] ∧
    get_price [fun _ => ProviderOutcome.raised,
               fun _ => ProviderOutcome.numeric 3] "ETH" =
      get_price_spec
        ([fun _ => ProviderOutcome.raised,
          fun _ => ProviderOutcome.numeric 3].map (fun p => p "ETH")) "ETH" :=
  ⟨by simp,
   C10_first_positive_provider
     [fun _ => ProviderOutcome.raised, fun _ => ProviderOutcome.numeric 3]
     "ETH" (by simp)⟩

end DefiCh
